import Mathlib

/-!
Verification of the config-sharing task (`pkg/tasks/configsharing.go`,
`ConfigSharingTask.Run`) of the cluster-monitoring-operator repository.

The task's collaborators (manifest factory route lookups, route-URL
resolution through the cluster client, the Grafana feature flag, and the
config-map upsert) are modelled as an environment of oracles; `Run` is a
direct shallow embedding of the Go function that additionally records the
trace of collaborator calls it performs, so that ordering, fail-fast and
no-partial-publish properties can be stated about the calls made.
-/

namespace ConfigSharing

/-- Logical endpoint identifiers appearing in `ConfigSharingTask.Run`. -/
inductive Endpoint
  | prometheus
  | alertmanager
  | grafana
  | thanosQuerier
  deriving DecidableEq, Repr

/-- A route descriptor as returned by the manifest factory; only its
identity matters to the task, which passes it through to `GetRouteURL`. -/
structure Route where
  name : String
  deriving DecidableEq, Repr

/-- The data of the config map handed to `CreateOrUpdateConfigMap`:
target identity (namespace and name) plus the key/value document. -/
structure ConfigMapData where
  Namespace : String
  Name : String
  data : List (String × String)
  deriving DecidableEq, Repr

/-- One collaborator call performed by `Run`: a factory route-descriptor
lookup, a route-URL resolution, or the final config-map upsert. -/
inductive Event
  | descriptorLookup (e : Endpoint)
  | resolveURL (e : Endpoint)
  | upsert (cm : ConfigMapData)
  deriving DecidableEq, Repr

/-- Error wrapping as done by `errors.Wrap(err, msg)`: the message is
prepended to the underlying error, separated by a colon and a space. -/
def wrap (msg e : String) : String := msg ++ ": " ++ e

/-- Modelled from the spec: `Factory.SharingConfig` (package `manifests`)
is not under `src/`; per the spec it is pure assembly of the shared
document — one key per mandatory endpoint, a dashboard key only when the
optional URL is present (non-nil), at a fixed target identity. -/
def SharingConfig (promURL amURL : String) (grafanaURL : Option String)
    (thanosURL : String) : ConfigMapData :=
  { Namespace := "openshift-config-managed"
    Name := "monitoring-shared-config"
    data :=
      [("prometheus", promURL), ("alertmanager", amURL)] ++
        (match grafanaURL with
         | some g => [("grafana", g)]
         | none => []) ++
        [("thanosQuerier", thanosURL)] }

/-- The collaborators of `ConfigSharingTask`: the factory's four route
lookups, the client's route-URL resolution, the Grafana feature flag and
the config-map upsert outcome. Fixed for the duration of one `Run`. -/
structure Env where
  prometheusK8sRoute : Except String Route
  alertmanagerRoute : Except String Route
  grafanaRoute : Except String Route
  thanosQuerierRoute : Except String Route
  getRouteURL : Route → Except String String
  grafanaEnabled : Bool
  createOrUpdateConfigMap : ConfigMapData → Except String Unit

/-- Tail of `Run` from the Thanos Querier stage on (the code after the
Grafana conditional): resolve the Thanos Querier route, build the sharing
config map and upsert it. `evts` is the trace accumulated so far. -/
def runFromThanos (t : Env) (evts : List Event) (promURL amURL : String)
    (grafanaURL : Option String) : List Event × Except String Unit :=
  match t.thanosQuerierRoute with
  | .error e =>
      (evts ++ [.descriptorLookup .thanosQuerier],
       .error (wrap "initializing Thanos Querier Route failed" e))
  | .ok thanosRoute =>
    match t.getRouteURL thanosRoute with
    | .error e =>
        (evts ++ [.descriptorLookup .thanosQuerier, .resolveURL .thanosQuerier],
         .error (wrap "failed to retrieve Thanos Querier host" e))
    | .ok thanosURL =>
      let cm := SharingConfig promURL amURL grafanaURL thanosURL
      match t.createOrUpdateConfigMap cm with
      | .error e =>
          (evts ++ [.descriptorLookup .thanosQuerier, .resolveURL .thanosQuerier,
                    .upsert cm],
           .error (wrap ("reconciling " ++ cm.Namespace ++ "/" ++ cm.Name ++
                         " Config ConfigMap failed") e))
      | .ok _ =>
          (evts ++ [.descriptorLookup .thanosQuerier, .resolveURL .thanosQuerier,
                    .upsert cm],
           .ok ())

/-- Shallow embedding of `ConfigSharingTask.Run`: Prometheus route lookup
and resolution, Alertmanager route lookup and resolution, conditionally
Grafana (feature-flag gated) lookup and resolution, then Thanos Querier
and the final upsert, failing fast with a wrapped error at each step.
Returns the trace of collaborator calls together with the result. -/
def Run (t : Env) : List Event × Except String Unit :=
  match t.prometheusK8sRoute with
  | .error e =>
      ([.descriptorLookup .prometheus],
       .error (wrap "initializing Prometheus Route failed" e))
  | .ok promRoute =>
    match t.getRouteURL promRoute with
    | .error e =>
        ([.descriptorLookup .prometheus, .resolveURL .prometheus],
         .error (wrap "failed to retrieve Prometheus host" e))
    | .ok promURL =>
      match t.alertmanagerRoute with
      | .error e =>
          ([.descriptorLookup .prometheus, .resolveURL .prometheus,
            .descriptorLookup .alertmanager],
           .error (wrap "initializing Alertmanager Route failed" e))
      | .ok amRoute =>
        match t.getRouteURL amRoute with
        | .error e =>
            ([.descriptorLookup .prometheus, .resolveURL .prometheus,
              .descriptorLookup .alertmanager, .resolveURL .alertmanager],
             .error (wrap "failed to retrieve Alertmanager host" e))
        | .ok amURL =>
          if t.grafanaEnabled then
            match t.grafanaRoute with
            | .error e =>
                ([.descriptorLookup .prometheus, .resolveURL .prometheus,
                  .descriptorLookup .alertmanager, .resolveURL .alertmanager,
                  .descriptorLookup .grafana],
                 .error (wrap "initializing Grafana Route failed" e))
            | .ok grafanaRoute =>
              match t.getRouteURL grafanaRoute with
              | .error e =>
                  ([.descriptorLookup .prometheus, .resolveURL .prometheus,
                    .descriptorLookup .alertmanager, .resolveURL .alertmanager,
                    .descriptorLookup .grafana, .resolveURL .grafana],
                   .error (wrap "failed to retrieve Grafana host" e))
              | .ok grafanaURL =>
                  runFromThanos t
                    [.descriptorLookup .prometheus, .resolveURL .prometheus,
                     .descriptorLookup .alertmanager, .resolveURL .alertmanager,
                     .descriptorLookup .grafana, .resolveURL .grafana]
                    promURL amURL (some grafanaURL)
          else
            runFromThanos t
              [.descriptorLookup .prometheus, .resolveURL .prometheus,
               .descriptorLookup .alertmanager, .resolveURL .alertmanager]
              promURL amURL none

/-- The documents passed to the upsert collaborator within a trace. -/
def upsertDocs (evts : List Event) : List ConfigMapData :=
  evts.filterMap fun ev =>
    match ev with
    | .upsert cm => some cm
    | _ => none

/-- Whether an event is the mutating upsert call. -/
def isUpsert : Event → Bool
  | .upsert _ => true
  | _ => false

/-- Whether an event is a collaborator call concerning endpoint `ep`
(its descriptor lookup or its URL resolution). -/
def touches (ep : Endpoint) : Event → Bool
  | .descriptorLookup x => x == ep
  | .resolveURL x => x == ep
  | .upsert _ => false

/-- A resolution stage fails when the descriptor lookup errors, or the
lookup succeeds and resolving the returned route to a URL errors. -/
def stageFails (t : Env) (desc : Except String Route) : Prop :=
  (∃ e, desc = Except.error e) ∨
    ∃ r e, desc = Except.ok r ∧ t.getRouteURL r = Except.error e

/-- Some mandatory endpoint (Prometheus, Alertmanager or Thanos Querier)
has a failing descriptor lookup or URL resolution in environment `t`. -/
def mandFails (t : Env) : Prop :=
  stageFails t t.prometheusK8sRoute ∨ stageFails t t.alertmanagerRoute ∨
    stageFails t t.thanosQuerierRoute

/-- List-of-characters substring test used to state that an error
message mentions an endpoint name. -/
def hasSub (needle : List Char) : List Char → Bool
  | [] => needle.isEmpty
  | c :: rest => needle.isPrefixOf (c :: rest) || hasSub needle rest

/-- ASCII lowering of a single character. -/
def lowerChar (c : Char) : Char :=
  if c.toNat ≥ 65 ∧ c.toNat ≤ 90 then Char.ofNat (c.toNat + 32) else c

/-- Case-insensitive containment of `needle` in message `m`. -/
def mentionsCI (m needle : String) : Bool :=
  hasSub (needle.data.map lowerChar) (m.data.map lowerChar)

/-- The first four events of every run: Prometheus and Alertmanager
descriptor lookups and resolutions, in the order the code performs them. -/
def preEvts : List Event :=
  [.descriptorLookup .prometheus, .resolveURL .prometheus,
   .descriptorLookup .alertmanager, .resolveURL .alertmanager]

/-- The run got past the Prometheus, Alertmanager and (conditional)
Grafana stages with trace `evts`, Prometheus URL `pu`, Alertmanager URL
`au` and optional Grafana URL `g`. -/
def reachesThanos (t : Env) (evts : List Event) (pu au : String) (g : Option String) : Prop :=
  ∃ pr ar, t.prometheusK8sRoute = Except.ok pr ∧ t.getRouteURL pr = Except.ok pu ∧
    t.alertmanagerRoute = Except.ok ar ∧ t.getRouteURL ar = Except.ok au ∧
    ((t.grafanaEnabled = false ∧ g = none ∧ evts = preEvts) ∨
     (t.grafanaEnabled = true ∧ ∃ gr gu, t.grafanaRoute = Except.ok gr ∧
        t.getRouteURL gr = Except.ok gu ∧ g = some gu ∧
        evts = preEvts ++ [.descriptorLookup .grafana, .resolveURL .grafana]))

/-- The descriptor oracle of the environment, indexed by endpoint. -/
def descOf (t : Env) : Endpoint → Except String Route
  | .prometheus => t.prometheusK8sRoute
  | .alertmanager => t.alertmanagerRoute
  | .grafana => t.grafanaRoute
  | .thanosQuerier => t.thanosQuerierRoute

/-- The collaborator call recorded by an event succeeded in `t`. -/
def eventOk (t : Env) : Event → Prop
  | .descriptorLookup ep => ∃ r, descOf t ep = Except.ok r
  | .resolveURL ep => ∃ r u, descOf t ep = Except.ok r ∧ t.getRouteURL r = Except.ok u
  | .upsert cm => t.createOrUpdateConfigMap cm = Except.ok ()

/-- Two successive invocations of `Run` against unchanged collaborator
responses; the task keeps no state between invocations, so both are
`Run t`. -/
def RunTwice (t : Env) : (List Event × Except String Unit) × (List Event × Except String Unit) :=
  (Run t, Run t)

/-- Concrete environment of the success scenario: every route resolves,
the Grafana feature flag is disabled and the upsert succeeds. -/
def env7 : Env :=
  { prometheusK8sRoute := Except.ok ⟨"prometheus-k8s"⟩
    alertmanagerRoute := Except.ok ⟨"alertmanager-main"⟩
    grafanaRoute := Except.ok ⟨"grafana"⟩
    thanosQuerierRoute := Except.ok ⟨"thanos-querier"⟩
    getRouteURL := fun r =>
      if r.name == "prometheus-k8s" then Except.ok "https://prom.example.com"
      else if r.name == "alertmanager-main" then Except.ok "https://am.example.com"
      else if r.name == "thanos-querier" then Except.ok "https://thanos.example.com"
      else Except.error "no such route"
    grafanaEnabled := false
    createOrUpdateConfigMap := fun _ => Except.ok () }

/-- The document published in the success scenario. -/
def cm7 : ConfigMapData :=
  SharingConfig "https://prom.example.com" "https://am.example.com" none
    "https://thanos.example.com"

/-- Concrete environment in which resolving the Alertmanager route fails
with a network error while everything before it succeeds. -/
def env8 : Env :=
  { prometheusK8sRoute := Except.ok ⟨"prometheus-k8s"⟩
    alertmanagerRoute := Except.ok ⟨"alertmanager-main"⟩
    grafanaRoute := Except.ok ⟨"grafana"⟩
    thanosQuerierRoute := Except.ok ⟨"thanos-querier"⟩
    getRouteURL := fun r =>
      if r.name == "prometheus-k8s" then Except.ok "https://prom.example.com"
      else if r.name == "alertmanager-main" then Except.error "network error"
      else if r.name == "thanos-querier" then Except.ok "https://thanos.example.com"
      else Except.error "no such route"
    grafanaEnabled := false
    createOrUpdateConfigMap := fun _ => Except.ok () }

/-- Concrete environment with the Grafana feature flag enabled and every
collaborator call succeeding. -/
def envDash : Env :=
  { prometheusK8sRoute := Except.ok ⟨"prometheus-k8s"⟩
    alertmanagerRoute := Except.ok ⟨"alertmanager-main"⟩
    grafanaRoute := Except.ok ⟨"grafana"⟩
    thanosQuerierRoute := Except.ok ⟨"thanos-querier"⟩
    getRouteURL := fun r =>
      if r.name == "prometheus-k8s" then Except.ok "https://prom.example.com"
      else if r.name == "alertmanager-main" then Except.ok "https://am.example.com"
      else if r.name == "grafana" then Except.ok "https://grafana.example.com"
      else if r.name == "thanos-querier" then Except.ok "https://thanos.example.com"
      else Except.error "no such route"
    grafanaEnabled := true
    createOrUpdateConfigMap := fun _ => Except.ok () }

/-- Concrete environment with the Grafana feature flag enabled and the
Grafana route resolution failing, everything before it succeeding. -/
def envDashFail : Env :=
  { prometheusK8sRoute := Except.ok ⟨"prometheus-k8s"⟩
    alertmanagerRoute := Except.ok ⟨"alertmanager-main"⟩
    grafanaRoute := Except.ok ⟨"grafana"⟩
    thanosQuerierRoute := Except.ok ⟨"thanos-querier"⟩
    getRouteURL := fun r =>
      if r.name == "prometheus-k8s" then Except.ok "https://prom.example.com"
      else if r.name == "alertmanager-main" then Except.ok "https://am.example.com"
      else if r.name == "grafana" then Except.error "grafana ingress unreachable"
      else if r.name == "thanos-querier" then Except.ok "https://thanos.example.com"
      else Except.error "no such route"
    grafanaEnabled := true
    createOrUpdateConfigMap := fun _ => Except.ok () }


/-- A stage whose descriptor lookup returns `r` and whose resolution of
`r` returns a URL does not fail. -/
lemma not_stageFails_of_ok (t : Env) (d : Except String Route) (r : Route) (u : String)
    (hd : d = Except.ok r) (hu : t.getRouteURL r = Except.ok u) : ¬ stageFails t d := by
  rintro (⟨e, he⟩ | ⟨r2, e, hr2, he⟩)
  · rw [hd] at he
    exact Except.noConfusion he
  · rw [hd] at hr2
    cases hr2
    rw [hu] at he
    exact Except.noConfusion he

/-- Exhaustive characterization of `Run`: exactly one of the ten
control-flow outcomes of the code happens, each with its exact trace and
its exact wrapped error or success. -/
lemma run_cases (t : Env) :
    (∃ e, t.prometheusK8sRoute = Except.error e ∧
       Run t = ([.descriptorLookup .prometheus],
         Except.error (wrap "initializing Prometheus Route failed" e))) ∨
    (∃ pr e, t.prometheusK8sRoute = Except.ok pr ∧ t.getRouteURL pr = Except.error e ∧
       Run t = ([.descriptorLookup .prometheus, .resolveURL .prometheus],
         Except.error (wrap "failed to retrieve Prometheus host" e))) ∨
    (∃ pr pu e, t.prometheusK8sRoute = Except.ok pr ∧ t.getRouteURL pr = Except.ok pu ∧
       t.alertmanagerRoute = Except.error e ∧
       Run t = ([.descriptorLookup .prometheus, .resolveURL .prometheus,
                 .descriptorLookup .alertmanager],
         Except.error (wrap "initializing Alertmanager Route failed" e))) ∨
    (∃ pr pu ar e, t.prometheusK8sRoute = Except.ok pr ∧ t.getRouteURL pr = Except.ok pu ∧
       t.alertmanagerRoute = Except.ok ar ∧ t.getRouteURL ar = Except.error e ∧
       Run t = (preEvts, Except.error (wrap "failed to retrieve Alertmanager host" e))) ∨
    (∃ pr pu ar au e, t.prometheusK8sRoute = Except.ok pr ∧ t.getRouteURL pr = Except.ok pu ∧
       t.alertmanagerRoute = Except.ok ar ∧ t.getRouteURL ar = Except.ok au ∧
       t.grafanaEnabled = true ∧ t.grafanaRoute = Except.error e ∧
       Run t = (preEvts ++ [.descriptorLookup .grafana],
         Except.error (wrap "initializing Grafana Route failed" e))) ∨
    (∃ pr pu ar au gr e, t.prometheusK8sRoute = Except.ok pr ∧ t.getRouteURL pr = Except.ok pu ∧
       t.alertmanagerRoute = Except.ok ar ∧ t.getRouteURL ar = Except.ok au ∧
       t.grafanaEnabled = true ∧ t.grafanaRoute = Except.ok gr ∧
       t.getRouteURL gr = Except.error e ∧
       Run t = (preEvts ++ [.descriptorLookup .grafana, .resolveURL .grafana],
         Except.error (wrap "failed to retrieve Grafana host" e))) ∨
    (∃ evts pu au g e, reachesThanos t evts pu au g ∧
       t.thanosQuerierRoute = Except.error e ∧
       Run t = (evts ++ [.descriptorLookup .thanosQuerier],
         Except.error (wrap "initializing Thanos Querier Route failed" e))) ∨
    (∃ evts pu au g tr e, reachesThanos t evts pu au g ∧
       t.thanosQuerierRoute = Except.ok tr ∧ t.getRouteURL tr = Except.error e ∧
       Run t = (evts ++ [.descriptorLookup .thanosQuerier, .resolveURL .thanosQuerier],
         Except.error (wrap "failed to retrieve Thanos Querier host" e))) ∨
    (∃ evts pu au g tr tu e, reachesThanos t evts pu au g ∧
       t.thanosQuerierRoute = Except.ok tr ∧ t.getRouteURL tr = Except.ok tu ∧
       t.createOrUpdateConfigMap (SharingConfig pu au g tu) = Except.error e ∧
       Run t = (evts ++ [.descriptorLookup .thanosQuerier, .resolveURL .thanosQuerier,
                 .upsert (SharingConfig pu au g tu)],
         Except.error (wrap ("reconciling " ++ (SharingConfig pu au g tu).Namespace ++ "/" ++
           (SharingConfig pu au g tu).Name ++ " Config ConfigMap failed") e))) ∨
    (∃ evts pu au g tr tu, reachesThanos t evts pu au g ∧
       t.thanosQuerierRoute = Except.ok tr ∧ t.getRouteURL tr = Except.ok tu ∧
       t.createOrUpdateConfigMap (SharingConfig pu au g tu) = Except.ok () ∧
       Run t = (evts ++ [.descriptorLookup .thanosQuerier, .resolveURL .thanosQuerier,
                 .upsert (SharingConfig pu au g tu)],
         Except.ok ())) := by
  cases hp : t.prometheusK8sRoute with
  | error e =>
      exact Or.inl ⟨e, rfl, by simp [Run, hp]⟩
  | ok pr =>
  cases hpu : t.getRouteURL pr with
  | error e =>
      exact Or.inr (Or.inl ⟨pr, e, rfl, hpu, by simp [Run, hp, hpu]⟩)
  | ok pu =>
  cases ha : t.alertmanagerRoute with
  | error e =>
      exact Or.inr (Or.inr (Or.inl ⟨pr, pu, e, rfl, hpu, rfl, by simp [Run, hp, hpu, ha]⟩))
  | ok ar =>
  cases hau : t.getRouteURL ar with
  | error e =>
      exact Or.inr (Or.inr (Or.inr (Or.inl ⟨pr, pu, ar, e, rfl, hpu, rfl, hau,
        by simp [Run, hp, hpu, ha, hau, preEvts]⟩)))
  | ok au =>
  cases hge : t.grafanaEnabled with
  | false =>
    have hreach : reachesThanos t preEvts pu au none :=
      ⟨pr, ar, hp, hpu, ha, hau, Or.inl ⟨hge, rfl, rfl⟩⟩
    cases hth : t.thanosQuerierRoute with
    | error e =>
        refine Or.inr (Or.inr (Or.inr (Or.inr (Or.inr (Or.inr (Or.inl
          ⟨preEvts, pu, au, none, e, hreach, rfl, ?_⟩))))))
        simp [Run, runFromThanos, hp, hpu, ha, hau, hge, hth, preEvts]
    | ok tr =>
    cases htu : t.getRouteURL tr with
    | error e =>
        refine Or.inr (Or.inr (Or.inr (Or.inr (Or.inr (Or.inr (Or.inr (Or.inl
          ⟨preEvts, pu, au, none, tr, e, hreach, rfl, htu, ?_⟩)))))))
        simp [Run, runFromThanos, hp, hpu, ha, hau, hge, hth, htu, preEvts]
    | ok tu =>
    cases hcm : t.createOrUpdateConfigMap (SharingConfig pu au none tu) with
    | error e =>
        refine Or.inr (Or.inr (Or.inr (Or.inr (Or.inr (Or.inr (Or.inr (Or.inr (Or.inl
          ⟨preEvts, pu, au, none, tr, tu, e, hreach, rfl, htu, hcm, ?_⟩))))))))
        simp [Run, runFromThanos, hp, hpu, ha, hau, hge, hth, htu, hcm, preEvts]
    | ok u =>
        refine Or.inr (Or.inr (Or.inr (Or.inr (Or.inr (Or.inr (Or.inr (Or.inr (Or.inr
          ⟨preEvts, pu, au, none, tr, tu, hreach, rfl, htu, ?_, ?_⟩))))))))
        · cases u; exact hcm
        · simp [Run, runFromThanos, hp, hpu, ha, hau, hge, hth, htu, hcm, preEvts]
  | true =>
    cases hg : t.grafanaRoute with
    | error e =>
        exact Or.inr (Or.inr (Or.inr (Or.inr (Or.inl ⟨pr, pu, ar, au, e, rfl, hpu, rfl, hau,
          rfl, rfl, by simp [Run, hp, hpu, ha, hau, hge, hg, preEvts]⟩))))
    | ok gr =>
    cases hgu : t.getRouteURL gr with
    | error e =>
        exact Or.inr (Or.inr (Or.inr (Or.inr (Or.inr (Or.inl ⟨pr, pu, ar, au, gr, e,
          rfl, hpu, rfl, hau, rfl, rfl, hgu,
          by simp [Run, hp, hpu, ha, hau, hge, hg, hgu, preEvts]⟩)))))
    | ok gu =>
    have hreach : reachesThanos t
        (preEvts ++ [.descriptorLookup .grafana, .resolveURL .grafana]) pu au (some gu) :=
      ⟨pr, ar, hp, hpu, ha, hau, Or.inr ⟨hge, gr, gu, hg, hgu, rfl, rfl⟩⟩
    cases hth : t.thanosQuerierRoute with
    | error e =>
        refine Or.inr (Or.inr (Or.inr (Or.inr (Or.inr (Or.inr (Or.inl
          ⟨_, pu, au, some gu, e, hreach, rfl, ?_⟩))))))
        simp [Run, runFromThanos, hp, hpu, ha, hau, hge, hg, hgu, hth, preEvts]
    | ok tr =>
    cases htu : t.getRouteURL tr with
    | error e =>
        refine Or.inr (Or.inr (Or.inr (Or.inr (Or.inr (Or.inr (Or.inr (Or.inl
          ⟨_, pu, au, some gu, tr, e, hreach, rfl, htu, ?_⟩)))))))
        simp [Run, runFromThanos, hp, hpu, ha, hau, hge, hg, hgu, hth, htu, preEvts]
    | ok tu =>
    cases hcm : t.createOrUpdateConfigMap (SharingConfig pu au (some gu) tu) with
    | error e =>
        refine Or.inr (Or.inr (Or.inr (Or.inr (Or.inr (Or.inr (Or.inr (Or.inr (Or.inl
          ⟨_, pu, au, some gu, tr, tu, e, hreach, rfl, htu, hcm, ?_⟩))))))))
        simp [Run, runFromThanos, hp, hpu, ha, hau, hge, hg, hgu, hth, htu, hcm, preEvts]
    | ok u =>
        refine Or.inr (Or.inr (Or.inr (Or.inr (Or.inr (Or.inr (Or.inr (Or.inr (Or.inr
          ⟨_, pu, au, some gu, tr, tu, hreach, rfl, htu, ?_, ?_⟩))))))))
        · cases u; exact hcm
        · simp [Run, runFromThanos, hp, hpu, ha, hau, hge, hg, hgu, hth, htu, hcm, preEvts]


/-- C7: in the concrete scenario where all descriptor lookups succeed,
the mandatory endpoints resolve to https://prom.example.com,
https://am.example.com and https://thanos.example.com, the dashboard
flag is disabled and the upsert succeeds, `Run` returns no error,
exactly one upsert call is made, and its document holds exactly the
three mandatory keys with those URLs and no dashboard key. -/
theorem run_concrete_success_scenario :
    (Run env7).2 = Except.ok () ∧
    upsertDocs (Run env7).1 = [cm7] ∧
    cm7.data = [("prometheus", "https://prom.example.com"),
      ("alertmanager", "https://am.example.com"),
      ("thanosQuerier", "https://thanos.example.com")] ∧
    List.lookup "grafana" cm7.data = none ∧
    ((Run env7).1.filter isUpsert).length = 1 :=
  ⟨rfl, rfl, rfl, rfl, rfl⟩

/-- C8: in the concrete scenario where the Alertmanager URL resolution
fails with a network error and all earlier steps succeed, `Run` returns
the underlying error wrapped in the Alertmanager-identifying message,
that message mentions alertmanager (case-insensitively), and zero
upsert calls are made. -/
theorem run_concrete_alertmanager_failure :
    (Run env8).2 =
      Except.error (wrap "failed to retrieve Alertmanager host" "network error") ∧
    mentionsCI (wrap "failed to retrieve Alertmanager host" "network error")
      "alertmanager" = true ∧
    upsertDocs (Run env8).1 = [] :=
  ⟨rfl, by decide, rfl⟩

/-- C2 counterexample: in a successful run with the dashboard flag
enabled, the Grafana (dashboard) descriptor lookup and URL resolution
are both among the first six collaborator calls, before any Thanos
Querier (long-term-query) call — so the dashboard endpoint is attempted
before the long-term-query endpoint has resolved, contrary to the claim
that all mandatory endpoints resolve first. -/
theorem run_dashboard_before_thanos_counterexample :
    (Run envDash).2 = Except.ok () ∧
    (Run envDash).1.take 6 =
      [Event.descriptorLookup Endpoint.prometheus, Event.resolveURL Endpoint.prometheus,
       Event.descriptorLookup Endpoint.alertmanager, Event.resolveURL Endpoint.alertmanager,
       Event.descriptorLookup Endpoint.grafana, Event.resolveURL Endpoint.grafana] ∧
    ((Run envDash).1.take 6).any (touches Endpoint.thanosQuerier) = false ∧
    ((Run envDash).1.take 6).any (touches Endpoint.grafana) = true :=
  ⟨rfl, rfl, rfl, rfl⟩

/-- C2 (amended): `Run` performs its resolutions in the fixed declared
order query-serving (Prometheus), alert-routing (Alertmanager), then —
if the feature flag is enabled — the optional dashboard (Grafana), and
only then the long-term-query endpoint (Thanos Querier), followed by
the single upsert; the dashboard endpoint, when enabled, is attempted
after the first two mandatory endpoints but before the long-term-query
endpoint. -/
theorem run_resolution_order_amended (t : Env) (pr ar tr : Route) (pu au tu : String)
    (hp : t.prometheusK8sRoute = Except.ok pr) (hpu : t.getRouteURL pr = Except.ok pu)
    (ha : t.alertmanagerRoute = Except.ok ar) (hau : t.getRouteURL ar = Except.ok au)
    (hth : t.thanosQuerierRoute = Except.ok tr) (htu : t.getRouteURL tr = Except.ok tu) :
    (t.grafanaEnabled = false →
      (Run t).1 = preEvts ++
        [Event.descriptorLookup Endpoint.thanosQuerier,
         Event.resolveURL Endpoint.thanosQuerier,
         Event.upsert (SharingConfig pu au none tu)]) ∧
    (∀ gr gu, t.grafanaEnabled = true → t.grafanaRoute = Except.ok gr →
      t.getRouteURL gr = Except.ok gu →
      (Run t).1 = preEvts ++
        [Event.descriptorLookup Endpoint.grafana, Event.resolveURL Endpoint.grafana,
         Event.descriptorLookup Endpoint.thanosQuerier,
         Event.resolveURL Endpoint.thanosQuerier,
         Event.upsert (SharingConfig pu au (some gu) tu)]) := by
  constructor
  · intro hge
    cases hcm : t.createOrUpdateConfigMap (SharingConfig pu au none tu) with
    | error e => simp [Run, runFromThanos, hp, hpu, ha, hau, hge, hth, htu, hcm, preEvts]
    | ok u => simp [Run, runFromThanos, hp, hpu, ha, hau, hge, hth, htu, hcm, preEvts]
  · intro gr gu hge hg hgu
    cases hcm : t.createOrUpdateConfigMap (SharingConfig pu au (some gu) tu) with
    | error e =>
        simp [Run, runFromThanos, hp, hpu, ha, hau, hge, hg, hgu, hth, htu, hcm, preEvts]
    | ok u =>
        simp [Run, runFromThanos, hp, hpu, ha, hau, hge, hg, hgu, hth, htu, hcm, preEvts]

/-- Witness for the amended C2 order theorem at the concrete enabled
environment. -/
theorem run_resolution_order_amended_witness :
    (Run envDash).1 = preEvts ++
      [Event.descriptorLookup Endpoint.grafana, Event.resolveURL Endpoint.grafana,
       Event.descriptorLookup Endpoint.thanosQuerier,
       Event.resolveURL Endpoint.thanosQuerier,
       Event.upsert (SharingConfig "https://prom.example.com" "https://am.example.com"
         (some "https://grafana.example.com") "https://thanos.example.com")] :=
  (run_resolution_order_amended envDash ⟨"prometheus-k8s"⟩ ⟨"alertmanager-main"⟩
      ⟨"thanos-querier"⟩ "https://prom.example.com" "https://am.example.com"
      "https://thanos.example.com" rfl rfl rfl rfl rfl rfl).2
    ⟨"grafana"⟩ "https://grafana.example.com" rfl rfl rfl


/-- C10: when the dashboard feature flag is enabled and the earlier
mandatory stages succeed, a failure of the Grafana descriptor lookup or
URL resolution aborts the run with the corresponding wrapped error, the
Thanos Querier (long-term-query) endpoint is never attempted, and no
upsert call is made. -/
theorem run_dashboard_enabled_failure_aborts (t : Env) (pr ar : Route) (pu au : String)
    (hp : t.prometheusK8sRoute = Except.ok pr) (hpu : t.getRouteURL pr = Except.ok pu)
    (ha : t.alertmanagerRoute = Except.ok ar) (hau : t.getRouteURL ar = Except.ok au)
    (hge : t.grafanaEnabled = true) (hgf : stageFails t t.grafanaRoute) :
    (∃ base, (Run t).2 = Except.error (wrap "initializing Grafana Route failed" base) ∨
       (Run t).2 = Except.error (wrap "failed to retrieve Grafana host" base)) ∧
    (∀ ev ∈ (Run t).1, touches Endpoint.thanosQuerier ev = false) ∧
    upsertDocs (Run t).1 = [] := by
  rcases hgf with ⟨e, hg⟩ | ⟨gr, e, hg, hgu⟩
  · refine ⟨⟨e, Or.inl ?_⟩, ?_, ?_⟩ <;>
      simp [Run, hp, hpu, ha, hau, hge, hg, upsertDocs, touches]
  · refine ⟨⟨e, Or.inr ?_⟩, ?_, ?_⟩ <;>
      simp [Run, hp, hpu, ha, hau, hge, hg, hgu, upsertDocs, touches]

/-- Witness for C10 at the concrete enabled-and-failing environment. -/
theorem run_dashboard_enabled_failure_aborts_witness :
    (∃ base,
       (Run envDashFail).2 = Except.error (wrap "initializing Grafana Route failed" base) ∨
       (Run envDashFail).2 = Except.error (wrap "failed to retrieve Grafana host" base)) ∧
    (∀ ev ∈ (Run envDashFail).1, touches Endpoint.thanosQuerier ev = false) ∧
    upsertDocs (Run envDashFail).1 = [] :=
  run_dashboard_enabled_failure_aborts envDashFail ⟨"prometheus-k8s"⟩ ⟨"alertmanager-main"⟩
    "https://prom.example.com" "https://am.example.com" rfl rfl rfl rfl rfl
    (Or.inr ⟨⟨"grafana"⟩, "grafana ingress unreachable", rfl, rfl⟩)

/-- C3: when the dashboard feature flag is disabled, no Grafana
descriptor lookup or URL resolution is ever performed, and every
document passed to the upsert has no grafana key, being assembled with
the dashboard URL absent. -/
theorem run_dashboard_disabled_untouched (t : Env) (h : t.grafanaEnabled = false) :
    (∀ ev ∈ (Run t).1, touches Endpoint.grafana ev = false) ∧
    (∀ cm ∈ upsertDocs (Run t).1,
      List.lookup "grafana" cm.data = none ∧ ∃ pu au tu, cm = SharingConfig pu au none tu) := by
  rcases run_cases t with
      ⟨e, h1, hrun⟩ | ⟨pr, e, h1, h2, hrun⟩ | ⟨pr, pu, e, h1, h2, h3, hrun⟩ |
      ⟨pr, pu, ar, e, h1, h2, h3, h4, hrun⟩ |
      ⟨pr, pu, ar, au, e, h1, h2, h3, h4, h5, h6, hrun⟩ |
      ⟨pr, pu, ar, au, gr, e, h1, h2, h3, h4, h5, h6, h7, hrun⟩ |
      ⟨evts, pu, au, g, e, hre, h1, hrun⟩ |
      ⟨evts, pu, au, g, tr, e, hre, h1, h2, hrun⟩ |
      ⟨evts, pu, au, g, tr, tu, e, hre, h1, h2, h3, hrun⟩ |
      ⟨evts, pu, au, g, tr, tu, hre, h1, h2, h3, hrun⟩
  · simp [hrun, upsertDocs, touches, preEvts]
  · simp [hrun, upsertDocs, touches, preEvts]
  · simp [hrun, upsertDocs, touches, preEvts]
  · simp [hrun, upsertDocs, touches, preEvts]
  · rw [h] at h5
    exact Bool.noConfusion h5
  · rw [h] at h5
    exact Bool.noConfusion h5
  · obtain ⟨pr, ar, k1, k2, k3, k4, hbr⟩ := hre
    rcases hbr with ⟨hgF, hgn, hevts⟩ | ⟨hgT, hrest⟩
    · subst hevts
      subst hgn
      simp [hrun, upsertDocs, touches, preEvts]
    · rw [h] at hgT
      exact Bool.noConfusion hgT
  · obtain ⟨pr, ar, k1, k2, k3, k4, hbr⟩ := hre
    rcases hbr with ⟨hgF, hgn, hevts⟩ | ⟨hgT, hrest⟩
    · subst hevts
      subst hgn
      simp [hrun, upsertDocs, touches, preEvts]
    · rw [h] at hgT
      exact Bool.noConfusion hgT
  · obtain ⟨pr, ar, k1, k2, k3, k4, hbr⟩ := hre
    rcases hbr with ⟨hgF, hgn, hevts⟩ | ⟨hgT, hrest⟩
    · subst hevts
      subst hgn
      refine ⟨?_, ?_⟩
      · simp [hrun, touches, preEvts]
      · intro cm hcm
        simp [hrun, upsertDocs, preEvts] at hcm
        subst hcm
        exact ⟨by simp [SharingConfig, List.lookup], pu, au, tu, rfl⟩
    · rw [h] at hgT
      exact Bool.noConfusion hgT
  · obtain ⟨pr, ar, k1, k2, k3, k4, hbr⟩ := hre
    rcases hbr with ⟨hgF, hgn, hevts⟩ | ⟨hgT, hrest⟩
    · subst hevts
      subst hgn
      refine ⟨?_, ?_⟩
      · simp [hrun, touches, preEvts]
      · intro cm hcm
        simp [hrun, upsertDocs, preEvts] at hcm
        subst hcm
        exact ⟨by simp [SharingConfig, List.lookup], pu, au, tu, rfl⟩
    · rw [h] at hgT
      exact Bool.noConfusion hgT

/-- Witness for C3 at the concrete disabled environment. -/
theorem run_dashboard_disabled_untouched_witness :
    (∀ ev ∈ (Run env7).1, touches Endpoint.grafana ev = false) ∧
    (∀ cm ∈ upsertDocs (Run env7).1,
      List.lookup "grafana" cm.data = none ∧ ∃ pu au tu, cm = SharingConfig pu au none tu) :=
  run_dashboard_disabled_untouched env7 rfl


/-- C4: when the dashboard feature flag is enabled and the Grafana route
resolves to a URL, every document passed to the upsert carries exactly
that URL under the grafana key, the document being assembled with the
resolved dashboard URL. -/
theorem run_dashboard_enabled_url_exact (t : Env) (gr : Route) (gu : String)
    (hge : t.grafanaEnabled = true) (hg : t.grafanaRoute = Except.ok gr)
    (hgu : t.getRouteURL gr = Except.ok gu) :
    ∀ cm ∈ upsertDocs (Run t).1,
      List.lookup "grafana" cm.data = some gu ∧
        ∃ pu au tu, cm = SharingConfig pu au (some gu) tu := by
  rcases run_cases t with
      ⟨e, h1, hrun⟩ | ⟨pr, e, h1, h2, hrun⟩ | ⟨pr, pu, e, h1, h2, h3, hrun⟩ |
      ⟨pr, pu, ar, e, h1, h2, h3, h4, hrun⟩ |
      ⟨pr, pu, ar, au, e, h1, h2, h3, h4, h5, h6, hrun⟩ |
      ⟨pr, pu, ar, au, gr2, e, h1, h2, h3, h4, h5, h6, h7, hrun⟩ |
      ⟨evts, pu, au, g, e, hre, h1, hrun⟩ |
      ⟨evts, pu, au, g, tr, e, hre, h1, h2, hrun⟩ |
      ⟨evts, pu, au, g, tr, tu, e, hre, h1, h2, h3, hrun⟩ |
      ⟨evts, pu, au, g, tr, tu, hre, h1, h2, h3, hrun⟩
  · simp [hrun, upsertDocs]
  · simp [hrun, upsertDocs]
  · simp [hrun, upsertDocs]
  · simp [hrun, upsertDocs, preEvts]
  · rw [hg] at h6
    exact Except.noConfusion h6
  · rw [hg] at h6
    cases h6
    rw [hgu] at h7
    exact Except.noConfusion h7
  · obtain ⟨pr, ar, k1, k2, k3, k4, hbr⟩ := hre
    rcases hbr with ⟨hgF, hgn, hevts⟩ | ⟨hgT, gr2, gu2, k5, k6, hgn, hevts⟩ <;>
      subst hevts <;> simp [hrun, upsertDocs, preEvts]
  · obtain ⟨pr, ar, k1, k2, k3, k4, hbr⟩ := hre
    rcases hbr with ⟨hgF, hgn, hevts⟩ | ⟨hgT, gr2, gu2, k5, k6, hgn, hevts⟩ <;>
      subst hevts <;> simp [hrun, upsertDocs, preEvts]
  · obtain ⟨pr, ar, k1, k2, k3, k4, hbr⟩ := hre
    rcases hbr with ⟨hgF, hgn, hevts⟩ | ⟨hgT, gr2, gu2, k5, k6, hgn, hevts⟩
    · rw [hge] at hgF
      exact Bool.noConfusion hgF
    · subst hevts
      rw [hg] at k5
      cases k5
      rw [hgu] at k6
      cases k6
      subst hgn
      intro cm hcm
      simp [hrun, upsertDocs, preEvts] at hcm
      subst hcm
      exact ⟨by simp [SharingConfig, List.lookup], pu, au, tu, rfl⟩
  · obtain ⟨pr, ar, k1, k2, k3, k4, hbr⟩ := hre
    rcases hbr with ⟨hgF, hgn, hevts⟩ | ⟨hgT, gr2, gu2, k5, k6, hgn, hevts⟩
    · rw [hge] at hgF
      exact Bool.noConfusion hgF
    · subst hevts
      rw [hg] at k5
      cases k5
      rw [hgu] at k6
      cases k6
      subst hgn
      intro cm hcm
      simp [hrun, upsertDocs, preEvts] at hcm
      subst hcm
      exact ⟨by simp [SharingConfig, List.lookup], pu, au, tu, rfl⟩

/-- Witness for C4 at the concrete enabled environment and its
concretely upserted document. -/
theorem run_dashboard_enabled_url_exact_witness :
    List.lookup "grafana"
        (SharingConfig "https://prom.example.com" "https://am.example.com"
          (some "https://grafana.example.com") "https://thanos.example.com").data =
      some "https://grafana.example.com" ∧
    ∃ pu au tu,
      SharingConfig "https://prom.example.com" "https://am.example.com"
          (some "https://grafana.example.com") "https://thanos.example.com" =
        SharingConfig pu au (some "https://grafana.example.com") tu :=
  run_dashboard_enabled_url_exact envDash ⟨"grafana"⟩ "https://grafana.example.com"
    rfl rfl rfl
    (SharingConfig "https://prom.example.com" "https://am.example.com"
      (some "https://grafana.example.com") "https://thanos.example.com")
    (by decide)

/-- C5: two successive invocations of `Run` against unchanged
collaborator responses upsert identical documents, and every upserted
document is rebuilt from scratch from the URLs the environment resolves
in that run, not from any previously published content. -/
theorem run_idempotent_rebuild (t : Env) :
    upsertDocs (RunTwice t).1.1 = upsertDocs (RunTwice t).2.1 ∧
    ∀ cm ∈ upsertDocs (Run t).1, ∃ evts pu au g tr tu,
      reachesThanos t evts pu au g ∧ t.thanosQuerierRoute = Except.ok tr ∧
      t.getRouteURL tr = Except.ok tu ∧ cm = SharingConfig pu au g tu := by
  refine ⟨rfl, ?_⟩
  rcases run_cases t with
      ⟨e, h1, hrun⟩ | ⟨pr, e, h1, h2, hrun⟩ | ⟨pr, pu, e, h1, h2, h3, hrun⟩ |
      ⟨pr, pu, ar, e, h1, h2, h3, h4, hrun⟩ |
      ⟨pr, pu, ar, au, e, h1, h2, h3, h4, h5, h6, hrun⟩ |
      ⟨pr, pu, ar, au, gr2, e, h1, h2, h3, h4, h5, h6, h7, hrun⟩ |
      ⟨evts, pu, au, g, e, hre, h1, hrun⟩ |
      ⟨evts, pu, au, g, tr, e, hre, h1, h2, hrun⟩ |
      ⟨evts, pu, au, g, tr, tu, e, hre, h1, h2, h3, hrun⟩ |
      ⟨evts, pu, au, g, tr, tu, hre, h1, h2, h3, hrun⟩
  · simp [hrun, upsertDocs]
  · simp [hrun, upsertDocs]
  · simp [hrun, upsertDocs]
  · simp [hrun, upsertDocs, preEvts]
  · simp [hrun, upsertDocs, preEvts]
  · simp [hrun, upsertDocs, preEvts]
  · have hre2 := hre
    obtain ⟨pr, ar, k1, k2, k3, k4, hbr⟩ := hre2
    rcases hbr with ⟨hgF, hgn, hevts⟩ | ⟨hgT, gr2, gu2, k5, k6, hgn, hevts⟩ <;>
      subst hevts <;> simp [hrun, upsertDocs, preEvts]
  · have hre2 := hre
    obtain ⟨pr, ar, k1, k2, k3, k4, hbr⟩ := hre2
    rcases hbr with ⟨hgF, hgn, hevts⟩ | ⟨hgT, gr2, gu2, k5, k6, hgn, hevts⟩ <;>
      subst hevts <;> simp [hrun, upsertDocs, preEvts]
  · have hre2 := hre
    obtain ⟨pr, ar, k1, k2, k3, k4, hbr⟩ := hre2
    intro cm hcm
    rcases hbr with ⟨hgF, hgn, hevts⟩ | ⟨hgT, gr2, gu2, k5, k6, hgn, hevts⟩ <;>
        subst hevts <;> simp [hrun, upsertDocs, preEvts] at hcm <;> subst hcm
    · exact ⟨preEvts, pu, au, g, tr, tu, hre, h1, h2, rfl⟩
    · exact ⟨preEvts ++ [Event.descriptorLookup Endpoint.grafana,
        Event.resolveURL Endpoint.grafana], pu, au, g, tr, tu, hre, h1, h2, rfl⟩
  · have hre2 := hre
    obtain ⟨pr, ar, k1, k2, k3, k4, hbr⟩ := hre2
    intro cm hcm
    rcases hbr with ⟨hgF, hgn, hevts⟩ | ⟨hgT, gr2, gu2, k5, k6, hgn, hevts⟩ <;>
        subst hevts <;> simp [hrun, upsertDocs, preEvts] at hcm <;> subst hcm
    · exact ⟨preEvts, pu, au, g, tr, tu, hre, h1, h2, rfl⟩
    · exact ⟨preEvts ++ [Event.descriptorLookup Endpoint.grafana,
        Event.resolveURL Endpoint.grafana], pu, au, g, tr, tu, hre, h1, h2, rfl⟩

/-- Witness for C5 at the concrete success environment. -/
theorem run_idempotent_rebuild_witness :
    ∃ evts pu au g tr tu,
      reachesThanos env7 evts pu au g ∧ env7.thanosQuerierRoute = Except.ok tr ∧
      env7.getRouteURL tr = Except.ok tu ∧ cm7 = SharingConfig pu au g tu :=
  (run_idempotent_rebuild env7).2 cm7 (by simp [Run, runFromThanos, env7, upsertDocs,
    cm7, SharingConfig])


/-- C1: if the descriptor lookup or URL resolution of any mandatory
endpoint fails, `Run` returns an error and the upsert is never invoked;
moreover no endpoint after the first failing one is attempted: a
Prometheus-stage failure leaves Alertmanager, Grafana and Thanos Querier
unattempted, and an Alertmanager-stage failure (Prometheus succeeding)
leaves Grafana and Thanos Querier unattempted. -/
theorem run_mandatory_failure_aborts_without_publish (t : Env) (h : mandFails t) :
    (∃ m, (Run t).2 = Except.error m) ∧
    upsertDocs (Run t).1 = [] ∧
    (stageFails t t.prometheusK8sRoute →
      ∀ ev ∈ (Run t).1, touches Endpoint.alertmanager ev = false ∧
        touches Endpoint.grafana ev = false ∧ touches Endpoint.thanosQuerier ev = false) ∧
    (¬ stageFails t t.prometheusK8sRoute → stageFails t t.alertmanagerRoute →
      ∀ ev ∈ (Run t).1, touches Endpoint.grafana ev = false ∧
        touches Endpoint.thanosQuerier ev = false) := by
  rcases run_cases t with
      ⟨e, h1, hrun⟩ | ⟨pr, e, h1, h2, hrun⟩ | ⟨pr, pu, e, h1, h2, h3, hrun⟩ |
      ⟨pr, pu, ar, e, h1, h2, h3, h4, hrun⟩ |
      ⟨pr, pu, ar, au, e, h1, h2, h3, h4, h5, h6, hrun⟩ |
      ⟨pr, pu, ar, au, gr2, e, h1, h2, h3, h4, h5, h6, h7, hrun⟩ |
      ⟨evts, pu, au, g, e, hre, h1, hrun⟩ |
      ⟨evts, pu, au, g, tr, e, hre, h1, h2, hrun⟩ |
      ⟨evts, pu, au, g, tr, tu, e, hre, h1, h2, h3, hrun⟩ |
      ⟨evts, pu, au, g, tr, tu, hre, h1, h2, h3, hrun⟩
  · refine ⟨⟨_, by rw [hrun]⟩, by simp [hrun, upsertDocs], ?_, ?_⟩
    · intro hsf
      simp [hrun, touches]
    · intro hn hsf
      exact absurd (Or.inl ⟨e, h1⟩) hn
  · refine ⟨⟨_, by rw [hrun]⟩, by simp [hrun, upsertDocs], ?_, ?_⟩
    · intro hsf
      simp [hrun, touches]
    · intro hn hsf
      exact absurd (Or.inr ⟨pr, e, h1, h2⟩) hn
  · refine ⟨⟨_, by rw [hrun]⟩, by simp [hrun, upsertDocs], ?_, ?_⟩
    · intro hsf
      exact (not_stageFails_of_ok t t.prometheusK8sRoute pr pu h1 h2 hsf).elim
    · intro hn hsf
      simp [hrun, touches]
  · refine ⟨⟨_, by rw [hrun]⟩, by simp [hrun, upsertDocs, preEvts], ?_, ?_⟩
    · intro hsf
      exact (not_stageFails_of_ok t t.prometheusK8sRoute pr pu h1 h2 hsf).elim
    · intro hn hsf
      simp [hrun, touches, preEvts]
  · refine ⟨⟨_, by rw [hrun]⟩, by simp [hrun, upsertDocs, preEvts], ?_, ?_⟩
    · intro hsf
      exact (not_stageFails_of_ok t t.prometheusK8sRoute pr pu h1 h2 hsf).elim
    · intro hn hsf
      exact (not_stageFails_of_ok t t.alertmanagerRoute ar au h3 h4 hsf).elim
  · refine ⟨⟨_, by rw [hrun]⟩, by simp [hrun, upsertDocs, preEvts], ?_, ?_⟩
    · intro hsf
      exact (not_stageFails_of_ok t t.prometheusK8sRoute pr pu h1 h2 hsf).elim
    · intro hn hsf
      exact (not_stageFails_of_ok t t.alertmanagerRoute ar au h3 h4 hsf).elim
  · obtain ⟨pr, ar, k1, k2, k3, k4, hbr⟩ := hre
    refine ⟨⟨_, by rw [hrun]⟩, ?_, ?_, ?_⟩
    · rcases hbr with ⟨hgF, hgn, hevts⟩ | ⟨hgT, gr2, gu2, k5, k6, hgn, hevts⟩ <;>
        subst hevts <;> simp [hrun, upsertDocs, preEvts]
    · intro hsf
      exact (not_stageFails_of_ok t t.prometheusK8sRoute pr pu k1 k2 hsf).elim
    · intro hn hsf
      exact (not_stageFails_of_ok t t.alertmanagerRoute ar au k3 k4 hsf).elim
  · obtain ⟨pr, ar, k1, k2, k3, k4, hbr⟩ := hre
    refine ⟨⟨_, by rw [hrun]⟩, ?_, ?_, ?_⟩
    · rcases hbr with ⟨hgF, hgn, hevts⟩ | ⟨hgT, gr2, gu2, k5, k6, hgn, hevts⟩ <;>
        subst hevts <;> simp [hrun, upsertDocs, preEvts]
    · intro hsf
      exact (not_stageFails_of_ok t t.prometheusK8sRoute pr pu k1 k2 hsf).elim
    · intro hn hsf
      exact (not_stageFails_of_ok t t.alertmanagerRoute ar au k3 k4 hsf).elim
  · obtain ⟨pr, ar, k1, k2, k3, k4, hbr⟩ := hre
    rcases h with hsf | hsf | hsf
    · exact (not_stageFails_of_ok t t.prometheusK8sRoute pr pu k1 k2 hsf).elim
    · exact (not_stageFails_of_ok t t.alertmanagerRoute ar au k3 k4 hsf).elim
    · exact (not_stageFails_of_ok t t.thanosQuerierRoute tr tu h1 h2 hsf).elim
  · obtain ⟨pr, ar, k1, k2, k3, k4, hbr⟩ := hre
    rcases h with hsf | hsf | hsf
    · exact (not_stageFails_of_ok t t.prometheusK8sRoute pr pu k1 k2 hsf).elim
    · exact (not_stageFails_of_ok t t.alertmanagerRoute ar au k3 k4 hsf).elim
    · exact (not_stageFails_of_ok t t.thanosQuerierRoute tr tu h1 h2 hsf).elim

/-- Witness for C1 at the concrete environment whose Alertmanager
resolution fails. -/
theorem run_mandatory_failure_aborts_without_publish_witness :
    (∃ m, (Run env8).2 = Except.error m) ∧
    upsertDocs (Run env8).1 = [] ∧
    (stageFails env8 env8.prometheusK8sRoute →
      ∀ ev ∈ (Run env8).1, touches Endpoint.alertmanager ev = false ∧
        touches Endpoint.grafana ev = false ∧ touches Endpoint.thanosQuerier ev = false) ∧
    (¬ stageFails env8 env8.prometheusK8sRoute → stageFails env8 env8.alertmanagerRoute →
      ∀ ev ∈ (Run env8).1, touches Endpoint.grafana ev = false ∧
        touches Endpoint.thanosQuerier ev = false) :=
  run_mandatory_failure_aborts_without_publish env8
    (Or.inr (Or.inl (Or.inr ⟨⟨"alertmanager-main"⟩, "network error", rfl, rfl⟩)))

/-- C9: in every execution the upsert is performed at most once and
every event other than the very last one of the trace is a read-only
lookup or resolution — so the upsert, when present, is the final
operation before returning — and on success exactly one upsert call
(the single write) has happened. -/
theorem run_single_final_upsert (t : Env) :
    ((Run t).1.filter isUpsert).length ≤ 1 ∧
    (∀ ev ∈ (Run t).1.dropLast, isUpsert ev = false) ∧
    ((Run t).2 = Except.ok () → ((Run t).1.filter isUpsert).length = 1) := by
  rcases run_cases t with
      ⟨e, h1, hrun⟩ | ⟨pr, e, h1, h2, hrun⟩ | ⟨pr, pu, e, h1, h2, h3, hrun⟩ |
      ⟨pr, pu, ar, e, h1, h2, h3, h4, hrun⟩ |
      ⟨pr, pu, ar, au, e, h1, h2, h3, h4, h5, h6, hrun⟩ |
      ⟨pr, pu, ar, au, gr2, e, h1, h2, h3, h4, h5, h6, h7, hrun⟩ |
      ⟨evts, pu, au, g, e, hre, h1, hrun⟩ |
      ⟨evts, pu, au, g, tr, e, hre, h1, h2, hrun⟩ |
      ⟨evts, pu, au, g, tr, tu, e, hre, h1, h2, h3, hrun⟩ |
      ⟨evts, pu, au, g, tr, tu, hre, h1, h2, h3, hrun⟩
  · simp [hrun, isUpsert, List.dropLast, List.filter]
  · simp [hrun, isUpsert, List.dropLast, List.filter]
  · simp [hrun, isUpsert, List.dropLast, List.filter]
  · simp [hrun, isUpsert, preEvts, List.dropLast, List.filter]
  · simp [hrun, isUpsert, preEvts, List.dropLast, List.filter]
  · simp [hrun, isUpsert, preEvts, List.dropLast, List.filter]
  · obtain ⟨pr, ar, k1, k2, k3, k4, hbr⟩ := hre
    rcases hbr with ⟨hgF, hgn, hevts⟩ | ⟨hgT, gr2, gu2, k5, k6, hgn, hevts⟩ <;>
      subst hevts <;> simp [hrun, isUpsert, preEvts, List.dropLast, List.filter]
  · obtain ⟨pr, ar, k1, k2, k3, k4, hbr⟩ := hre
    rcases hbr with ⟨hgF, hgn, hevts⟩ | ⟨hgT, gr2, gu2, k5, k6, hgn, hevts⟩ <;>
      subst hevts <;> simp [hrun, isUpsert, preEvts, List.dropLast, List.filter]
  · obtain ⟨pr, ar, k1, k2, k3, k4, hbr⟩ := hre
    rcases hbr with ⟨hgF, hgn, hevts⟩ | ⟨hgT, gr2, gu2, k5, k6, hgn, hevts⟩ <;>
      subst hevts <;> simp [hrun, isUpsert, preEvts, List.dropLast, List.filter]
  · obtain ⟨pr, ar, k1, k2, k3, k4, hbr⟩ := hre
    rcases hbr with ⟨hgF, hgn, hevts⟩ | ⟨hgT, gr2, gu2, k5, k6, hgn, hevts⟩ <;>
      subst hevts <;> simp [hrun, isUpsert, preEvts, List.dropLast, List.filter]

/-- Witness for C9 at the concrete success environment: the first
recorded event is not the upsert, and the successful run performed
exactly one upsert. -/
theorem run_single_final_upsert_witness :
    isUpsert (Event.descriptorLookup Endpoint.prometheus) = false ∧
    ((Run env7).1.filter isUpsert).length = 1 :=
  ⟨(run_single_final_upsert env7).2.1 (Event.descriptorLookup Endpoint.prometheus) (by
      show Event.descriptorLookup Endpoint.prometheus ∈ (Run env7).1.dropLast
      decide),
    (run_single_final_upsert env7).2.2 rfl⟩


/-- C6: every error returned by `Run` is the wrap of an underlying
collaborator error with a message identifying the failing stage and
endpoint (or, for the upsert, the target namespace and name), and no
collaborator error is swallowed: when `Run` returns no error, every
collaborator call it performed succeeded. -/
theorem run_errors_wrapped_not_swallowed (t : Env) :
    (∀ m, (Run t).2 = Except.error m → ∃ base,
      (t.prometheusK8sRoute = Except.error base ∧
        m = wrap "initializing Prometheus Route failed" base) ∨
      (∃ r, t.prometheusK8sRoute = Except.ok r ∧ t.getRouteURL r = Except.error base ∧
        m = wrap "failed to retrieve Prometheus host" base) ∨
      (t.alertmanagerRoute = Except.error base ∧
        m = wrap "initializing Alertmanager Route failed" base) ∨
      (∃ r, t.alertmanagerRoute = Except.ok r ∧ t.getRouteURL r = Except.error base ∧
        m = wrap "failed to retrieve Alertmanager host" base) ∨
      (t.grafanaEnabled = true ∧ t.grafanaRoute = Except.error base ∧
        m = wrap "initializing Grafana Route failed" base) ∨
      (t.grafanaEnabled = true ∧ ∃ r, t.grafanaRoute = Except.ok r ∧
        t.getRouteURL r = Except.error base ∧
        m = wrap "failed to retrieve Grafana host" base) ∨
      (t.thanosQuerierRoute = Except.error base ∧
        m = wrap "initializing Thanos Querier Route failed" base) ∨
      (∃ r, t.thanosQuerierRoute = Except.ok r ∧ t.getRouteURL r = Except.error base ∧
        m = wrap "failed to retrieve Thanos Querier host" base) ∨
      (∃ cm, t.createOrUpdateConfigMap cm = Except.error base ∧
        m = wrap ("reconciling " ++ cm.Namespace ++ "/" ++ cm.Name ++
          " Config ConfigMap failed") base)) ∧
    ((Run t).2 = Except.ok () → ∀ ev ∈ (Run t).1, eventOk t ev) := by
  rcases run_cases t with
      ⟨e, h1, hrun⟩ | ⟨pr, e, h1, h2, hrun⟩ | ⟨pr, pu, e, h1, h2, h3, hrun⟩ |
      ⟨pr, pu, ar, e, h1, h2, h3, h4, hrun⟩ |
      ⟨pr, pu, ar, au, e, h1, h2, h3, h4, h5, h6, hrun⟩ |
      ⟨pr, pu, ar, au, gr2, e, h1, h2, h3, h4, h5, h6, h7, hrun⟩ |
      ⟨evts, pu, au, g, e, hre, h1, hrun⟩ |
      ⟨evts, pu, au, g, tr, e, hre, h1, h2, hrun⟩ |
      ⟨evts, pu, au, g, tr, tu, e, hre, h1, h2, h3, hrun⟩ |
      ⟨evts, pu, au, g, tr, tu, hre, h1, h2, h3, hrun⟩
  · refine ⟨?_, ?_⟩
    · intro m hm
      simp [hrun] at hm
      subst hm
      exact ⟨e, Or.inl ⟨h1, rfl⟩⟩
    · intro hok
      simp [hrun] at hok
  · refine ⟨?_, ?_⟩
    · intro m hm
      simp [hrun] at hm
      subst hm
      exact ⟨e, Or.inr (Or.inl ⟨pr, h1, h2, rfl⟩)⟩
    · intro hok
      simp [hrun] at hok
  · refine ⟨?_, ?_⟩
    · intro m hm
      simp [hrun] at hm
      subst hm
      exact ⟨e, Or.inr (Or.inr (Or.inl ⟨h3, rfl⟩))⟩
    · intro hok
      simp [hrun] at hok
  · refine ⟨?_, ?_⟩
    · intro m hm
      simp [hrun] at hm
      subst hm
      exact ⟨e, Or.inr (Or.inr (Or.inr (Or.inl ⟨ar, h3, h4, rfl⟩)))⟩
    · intro hok
      simp [hrun] at hok
  · refine ⟨?_, ?_⟩
    · intro m hm
      simp [hrun] at hm
      subst hm
      exact ⟨e, Or.inr (Or.inr (Or.inr (Or.inr (Or.inl ⟨h5, h6, rfl⟩))))⟩
    · intro hok
      simp [hrun] at hok
  · refine ⟨?_, ?_⟩
    · intro m hm
      simp [hrun] at hm
      subst hm
      exact ⟨e, Or.inr (Or.inr (Or.inr (Or.inr (Or.inr (Or.inl ⟨h5, gr2, h6, h7, rfl⟩)))))⟩
    · intro hok
      simp [hrun] at hok
  · refine ⟨?_, ?_⟩
    · intro m hm
      simp [hrun] at hm
      subst hm
      exact ⟨e, Or.inr (Or.inr (Or.inr (Or.inr (Or.inr (Or.inr (Or.inl ⟨h1, rfl⟩))))))⟩
    · intro hok
      simp [hrun] at hok
  · refine ⟨?_, ?_⟩
    · intro m hm
      simp [hrun] at hm
      subst hm
      exact ⟨e, Or.inr (Or.inr (Or.inr (Or.inr (Or.inr (Or.inr (Or.inr (Or.inl
        ⟨tr, h1, h2, rfl⟩)))))))⟩
    · intro hok
      simp [hrun] at hok
  · refine ⟨?_, ?_⟩
    · intro m hm
      simp [hrun] at hm
      subst hm
      exact ⟨e, Or.inr (Or.inr (Or.inr (Or.inr (Or.inr (Or.inr (Or.inr (Or.inr
        ⟨SharingConfig pu au g tu, h3, rfl⟩)))))))⟩
    · intro hok
      simp [hrun] at hok
  · refine ⟨?_, ?_⟩
    · intro m hm
      simp [hrun] at hm
    · intro hok ev hev
      obtain ⟨pr, ar, k1, k2, k3, k4, hbr⟩ := hre
      rcases hbr with ⟨hgF, hgn, hevts⟩ | ⟨hgT, gr2, gu2, k5, k6, hgn, hevts⟩
      · subst hevts
        simp [hrun, preEvts] at hev
        rcases hev with rfl | rfl | rfl | rfl | rfl | rfl | rfl
        · exact ⟨pr, k1⟩
        · exact ⟨pr, pu, k1, k2⟩
        · exact ⟨ar, k3⟩
        · exact ⟨ar, au, k3, k4⟩
        · exact ⟨tr, h1⟩
        · exact ⟨tr, tu, h1, h2⟩
        · exact h3
      · subst hevts
        simp [hrun, preEvts] at hev
        rcases hev with rfl | rfl | rfl | rfl | rfl | rfl | rfl | rfl | rfl
        · exact ⟨pr, k1⟩
        · exact ⟨pr, pu, k1, k2⟩
        · exact ⟨ar, k3⟩
        · exact ⟨ar, au, k3, k4⟩
        · exact ⟨gr2, k5⟩
        · exact ⟨gr2, gu2, k5, k6⟩
        · exact ⟨tr, h1⟩
        · exact ⟨tr, tu, h1, h2⟩
        · exact h3

/-- Witness for C6 at the concrete environment whose Alertmanager
resolution fails with a network error. -/
theorem run_errors_wrapped_not_swallowed_witness :
    ∃ base,
      (env8.prometheusK8sRoute = Except.error base ∧
        wrap "failed to retrieve Alertmanager host" "network error" =
          wrap "initializing Prometheus Route failed" base) ∨
      (∃ r, env8.prometheusK8sRoute = Except.ok r ∧
        env8.getRouteURL r = Except.error base ∧
        wrap "failed to retrieve Alertmanager host" "network error" =
          wrap "failed to retrieve Prometheus host" base) ∨
      (env8.alertmanagerRoute = Except.error base ∧
        wrap "failed to retrieve Alertmanager host" "network error" =
          wrap "initializing Alertmanager Route failed" base) ∨
      (∃ r, env8.alertmanagerRoute = Except.ok r ∧
        env8.getRouteURL r = Except.error base ∧
        wrap "failed to retrieve Alertmanager host" "network error" =
          wrap "failed to retrieve Alertmanager host" base) ∨
      (env8.grafanaEnabled = true ∧ env8.grafanaRoute = Except.error base ∧
        wrap "failed to retrieve Alertmanager host" "network error" =
          wrap "initializing Grafana Route failed" base) ∨
      (env8.grafanaEnabled = true ∧ ∃ r, env8.grafanaRoute = Except.ok r ∧
        env8.getRouteURL r = Except.error base ∧
        wrap "failed to retrieve Alertmanager host" "network error" =
          wrap "failed to retrieve Grafana host" base) ∨
      (env8.thanosQuerierRoute = Except.error base ∧
        wrap "failed to retrieve Alertmanager host" "network error" =
          wrap "initializing Thanos Querier Route failed" base) ∨
      (∃ r, env8.thanosQuerierRoute = Except.ok r ∧
        env8.getRouteURL r = Except.error base ∧
        wrap "failed to retrieve Alertmanager host" "network error" =
          wrap "failed to retrieve Thanos Querier host" base) ∨
      (∃ cm, env8.createOrUpdateConfigMap cm = Except.error base ∧
        wrap "failed to retrieve Alertmanager host" "network error" =
          wrap ("reconciling " ++ cm.Namespace ++ "/" ++ cm.Name ++
            " Config ConfigMap failed") base) :=
  (run_errors_wrapped_not_swallowed env8).1
    (wrap "failed to retrieve Alertmanager host" "network error") rfl

end ConfigSharing
